import Mathlib

/-!
# Shallow embedding of the sshm SSH connection subsystem

This file embeds the `internal/ssh` connector of the sshm repository
(the `Connector`, its configuration builders, path expansion, the
default-key discovery loop, the interactive-session driver and the
connectivity probes) as executable Lean definitions, and proves the
specification claims about them.

External effects (environment variables, the SSH agent, the file
system, TCP dials, the remote session) are modelled by an explicit
`Env` record of oracles; each Go function becomes a pure function of
the environment.  Go `error` values produced with `fmt.Errorf` are
modelled by the `GoError` inductive, where `%w`-wrapping is the
`wrap` constructor.
-/

set_option autoImplicit false

namespace Sshm

/-- Go errors as they arise in this code base: a plain `fmt.Errorf` message,
a message wrapping an inner error via `%w`, or the x/crypto/ssh `ExitError`
carrying a remote exit status. -/
inductive GoError where
  | msg (s : String)
  | wrap (s : String) (inner : GoError)
  | exitStatus (n : Nat)
  deriving DecidableEq, Repr

/-- The outermost message a `fmt.Errorf`-built error exposes before the
wrapped detail, i.e. the classification the calling code itself attached. -/
def outerMessage : GoError → String
  | .msg s => s
  | .wrap s _ => s
  | .exitStatus n => "Process exited with status " ++ toString n

/-- `models.Host` (internal/models): an SSH host entry. -/
structure Host where
  id : String := ""
  name : String := ""
  host : String := ""
  port : Int := 0
  user : String := ""
  identity : String := ""
  proxy : String := ""
  tags : List String := []
  deriving DecidableEq, Repr

/-- A private-key signer (`ssh.Signer`), identified by its key material. -/
abbrev Signer := String

/-- An `ssh.AuthMethod` value as built by this code: `ssh.PublicKeys(signers...)`. -/
inductive SshAuthMethod where
  | publicKeys (signers : List Signer)
  deriving DecidableEq, Repr

/-- The host-key verification callbacks of x/crypto/ssh that matter here:
`InsecureIgnoreHostKey` accepts every presented key, `FixedHostKey`
rejects any key other than the pinned one. -/
inductive HostKeyCallback where
  | insecureIgnoreHostKey
  | fixedHostKey (key : String)
  deriving DecidableEq, Repr

/-- Host-key verification: `none` means the callback accepts the presented
server key, `some e` means it rejects it with error `e`. -/
def hostKeyCheck : HostKeyCallback → String → Option GoError
  | .insecureIgnoreHostKey, _ => none
  | .fixedHostKey pinned, presented =>
      if presented = pinned then none else some (.msg "ssh: host key mismatch")

/-- `ssh.ClientConfig` restricted to the fields this code sets. -/
structure ClientConfig where
  user : String
  auth : List SshAuthMethod
  hostKeyCallback : HostKeyCallback
  deriving DecidableEq, Repr

/-- The repository's `AuthMethod` enum (`AuthMethodNone`, `AuthMethodPassword`,
`AuthMethodKeyFile`, `AuthMethodSSHAgent`). -/
inductive AuthMethod where
  | none
  | password
  | keyFile
  | sshAgent
  deriving DecidableEq, Repr

/-- Outcome of `ssh.Dial` for a given address, user and offered auth methods:
the TCP dial failed, the key exchange failed before a server key was
presented, or the key exchange completed presenting `serverKey`, after which
(if the host-key callback accepts) authentication yields `authResult`
(`none` = authenticated). -/
inductive DialOutcome where
  | tcpFailed (e : GoError)
  | kexFailed (e : GoError)
  | presented (serverKey : String) (authResult : Option GoError)

/-- Result of waiting on the remote process of a session. -/
inductive WaitResult where
  | exited (status : Nat)
  | abnormal (e : GoError)

/-- The external world the connector interacts with: environment variables,
the agent socket, the file system, key parsing, TCP/SSH dialing and the
interactive session's remote side. -/
structure Env where
  getenv : String → String
  unixDial : String → Option GoError
  agentSigners : Except GoError (List Signer)
  homeDir : Except GoError String
  readFile : String → Except GoError String
  parsePrivateKey : String → Except GoError Signer
  dialOutcome : String → String → List SshAuthMethod → DialOutcome
  netDial : String → Option GoError
  netDialTimeout : String → Option GoError
  newSession : Option GoError
  requestPty : String → Int → Int → List (String × Nat) → Option GoError
  shell : Option GoError
  wait : WaitResult

/-- Models Go's `filepath.Join` for the joins arising here: non-empty
components are joined with a slash (the `Clean` normalisation of `.` and
`..` segments is not modelled; no claim depends on it). -/
def filepathJoin (a b : String) : String :=
  if a = "" then b else if b = "" then a else a ++ "/" ++ b

/-- `expandPath`: expands `~` to the home directory
(`len(path) > 1 && path[:2] == "~/"`, then `filepath.Join(usr.HomeDir, path[2:])`). -/
def expandPath (env : Env) (path : String) : Except GoError String :=
  if path.length > 1 ∧ path.take 2 = "~/" then
    match env.homeDir with
    | .error e => .error e
    | .ok home => .ok (filepathJoin home (path.drop 2))
  else .ok path

/-- `ssh.Dial`: TCP dial, key exchange, host-key verification via the
config's callback, then authentication with the config's methods. -/
def sshDial (env : Env) (addr : String) (config : ClientConfig) : Except GoError Unit :=
  match env.dialOutcome addr config.user config.auth with
  | .tcpFailed e => .error e
  | .kexFailed e => .error e
  | .presented serverKey authResult =>
    match hostKeyCheck config.hostKeyCallback serverKey with
    | some e => .error (.wrap "ssh: handshake failed" e)
    | none =>
      match authResult with
      | some e => .error e
      | none => .ok ()

/-- `addSSHAgentAuth`: read `SSH_AUTH_SOCK`, dial the unix socket, request
the agent's signers; fail unless at least one signer is returned. -/
def addSSHAgentAuth (env : Env) (config : ClientConfig) : Except GoError ClientConfig :=
  let socket := env.getenv "SSH_AUTH_SOCK"
  if socket = "" then .error (.msg "SSH_AUTH_SOCK not set")
  else
    match env.unixDial socket with
    | some e => .error (.wrap "failed to connect to SSH agent" e)
    | none =>
      match env.agentSigners with
      | .error e => .error (.wrap "no keys available from SSH agent" e)
      | .ok signers =>
        if signers.length = 0 then .error (.msg "no keys available from SSH agent")
        else .ok { config with auth := config.auth ++ [.publicKeys signers] }

/-- `addKeyFileAuth`: expand the identity path, read the file, parse the
private key; each step is a hard failure. -/
def addKeyFileAuth (env : Env) (config : ClientConfig) (keyPath : String) :
    Except GoError ClientConfig :=
  match expandPath env keyPath with
  | .error e => .error (.wrap "failed to expand identity path" e)
  | .ok expandedPath =>
    match env.readFile expandedPath with
    | .error e => .error (.wrap "failed to read identity file" e)
    | .ok key =>
      match env.parsePrivateKey key with
      | .error e => .error (.wrap "failed to parse private key" e)
      | .ok signer => .ok { config with auth := config.auth ++ [.publicKeys [signer]] }

/-- The fixed, ordered default key path list of `addDefaultKeysAuth`. -/
def defaultKeys : List String :=
  ["~/.ssh/id_ed25519", "~/.ssh/id_rsa", "~/.ssh/id_ecdsa", "~/.ssh/id_dsa"]

/-- One iteration of the `addDefaultKeysAuth` loop: any failure of
expand/read/parse `continue`s, a parsed signer is appended. -/
def tryDefaultKey (env : Env) (config : ClientConfig) (keyPath : String) : ClientConfig :=
  match expandPath env keyPath with
  | .error _ => config
  | .ok expandedPath =>
    match env.readFile expandedPath with
    | .error _ => config
    | .ok key =>
      match env.parsePrivateKey key with
      | .error _ => config
      | .ok signer => { config with auth := config.auth ++ [.publicKeys [signer]] }

/-- `addDefaultKeysAuth`: soft-fail loop over the default key list, then
error iff no auth method was accumulated at all. -/
def addDefaultKeysAuth (env : Env) (config : ClientConfig) : Except GoError ClientConfig :=
  let config := defaultKeys.foldl (tryDefaultKey env) config
  if config.auth.length = 0 then .error (.msg "no authentication method available")
  else .ok config

/-- The signer a default-key path contributes, if expand+read+parse all
succeed (specification-level restatement of one loop iteration). -/
def usableSigner (env : Env) (keyPath : String) : Option Signer :=
  match expandPath env keyPath with
  | .error _ => none
  | .ok expandedPath =>
    match env.readFile expandedPath with
    | .error _ => none
    | .ok key =>
      match env.parsePrivateKey key with
      | .error _ => none
      | .ok signer => some signer

/-- Whether a key path yields a parsable signer (expand, read and parse all
succeed). -/
def keyUsable (env : Env) (keyPath : String) : Bool :=
  (usableSigner env keyPath).isSome

/-- The base `ssh.ClientConfig` both builders start from: the host's user,
an empty auth list and `ssh.InsecureIgnoreHostKey()`. -/
def baseConfig (host : Host) : ClientConfig :=
  { user := host.user, auth := [], hostKeyCallback := .insecureIgnoreHostKey }

/-- The trailing `if len(config.Auth) == 0` check shared by both builder
variants: an error passes through, an empty auth list becomes the
"no authentication method available" error. -/
def finalizeConfig : Except GoError ClientConfig → Except GoError ClientConfig
  | .error e => .error e
  | .ok config =>
    if config.auth.length = 0 then .error (.msg "no authentication method available")
    else .ok config

/-- `buildClientConfigWithAuth`: build the base config, dispatch on the
selected `AuthMethod`, then error if no auth method was collected. -/
def buildClientConfigWithAuth (env : Env) (host : Host) (auth : AuthMethod) :
    Except GoError ClientConfig :=
  let config := baseConfig host
  finalizeConfig
    (match auth with
    | .password => .error (.msg "password authentication not implemented")
    | .sshAgent => addSSHAgentAuth env config
    | .keyFile | .none =>
      if host.identity ≠ "" then addKeyFileAuth env config host.identity
      else addDefaultKeysAuth env config)

/-- The method-precedence loop of `buildClientConfig`: try each method in
order, accepting the first error-free config with a non-empty auth list. -/
def tryMethods (env : Env) (host : Host) : List AuthMethod → Except GoError ClientConfig
  | [] => .error (.msg "no authentication method available")
  | m :: ms =>
    match buildClientConfigWithAuth env host m with
    | .ok config =>
      if config.auth.length > 0 then .ok config else tryMethods env host ms
    | .error _ => tryMethods env host ms

/-- `buildClientConfig` (second connector variant): try SSH agent first,
then key file. -/
def buildClientConfig (env : Env) (host : Host) : Except GoError ClientConfig :=
  tryMethods env host [.sshAgent, .keyFile]

/-- The live `*ssh.Client`, opaque to this code. -/
inductive Client where
  | mk
  deriving DecidableEq, Repr

/-- The `Connector` struct: its `client` and `config` fields. -/
structure Connector where
  client : Option Client := Option.none
  config : Option ClientConfig := Option.none
  deriving DecidableEq, Repr

/-- `NewConnector`: a connector with nil client and config. -/
def NewConnector : Connector := {}

/-- `IsConnected`: whether `client` is non-nil. -/
def IsConnected (c : Connector) : Bool :=
  c.client.isSome

/-- `fmt.Sprintf("%s:%d", host.Host, host.Port)`: the dial address. -/
def addrOf (host : Host) : String :=
  host.host ++ ":" ++ toString host.port

/-- `Connect`: build the config, dial, and only on success store the client
and config in the connector. -/
def Connect (env : Env) (c : Connector) (host : Host) : Connector × Except GoError Unit :=
  match buildClientConfig env host with
  | .error e => (c, .error (.wrap "failed to build client config" e))
  | .ok config =>
    let addr := addrOf host
    match sshDial env addr config with
    | .error e => (c, .error (.wrap ("failed to connect to " ++ addr) e))
    | .ok _ => ({ client := some .mk, config := some config }, .ok ())

/-- `ConnectWithAuth`: like `Connect` but with a caller-selected auth method. -/
def ConnectWithAuth (env : Env) (c : Connector) (host : Host) (auth : AuthMethod) :
    Connector × Except GoError Unit :=
  match buildClientConfigWithAuth env host auth with
  | .error e => (c, .error (.wrap "failed to build client config" e))
  | .ok config =>
    let addr := addrOf host
    match sshDial env addr config with
    | .error e => (c, .error (.wrap ("failed to connect to " ++ addr) e))
    | .ok _ => ({ client := some .mk, config := some config }, .ok ())

/-- `strconv.Atoi`: an optional sign followed by one or more decimal digits
(the 64-bit range error is not modelled; no claim exercises it). -/
def atoi (s : String) : Option Int :=
  let withSign : Int × List Char :=
    match s.toList with
    | '+' :: rest => (1, rest)
    | '-' :: rest => (-1, rest)
    | cs => (1, cs)
  match withSign with
  | (sign, digits) =>
    if digits.isEmpty ∨ ¬ digits.all Char.isDigit then Option.none
    else some (sign * (digits.foldl (fun acc c => 10 * acc + (c.toNat - '0'.toNat)) 0 : Nat))

/-- `getTerminalSizeImpl`: consult the `COLUMNS`/`LINES` environment hints;
if both are set and both parse, return them, else fall back to 80×24.
The Go function's error result is always nil. -/
def getTerminalSizeImpl (env : Env) : Int × Int × Option GoError :=
  let w := env.getenv "COLUMNS"
  let h := env.getenv "LINES"
  if w ≠ "" then
    if h ≠ "" then
      match atoi w, atoi h with
      | some width, some height => (width, height, Option.none)
      | _, _ => (80, 24, Option.none)
    else (80, 24, Option.none)
  else (80, 24, Option.none)

/-- `getTerminalSize`: the impl's `(width, height)`, or 80×24 if it errs. -/
def getTerminalSize (env : Env) : Int × Int :=
  match getTerminalSizeImpl env with
  | (_, _, some _) => (80, 24)
  | (width, height, Option.none) => (width, height)

/-- The `ssh.TerminalModes` map requested for the PTY. -/
def sshTerminalModes : List (String × Nat) :=
  [("ECHO", 1), ("TTY_OP_ISPEED", 14400), ("TTY_OP_OSPEED", 14400)]

/-- `Session.Wait` of x/crypto/ssh: nil when the remote process exits with
status 0, an `ExitError` carrying the status otherwise, and the channel's
own error on abnormal closure. -/
def sessionWait : WaitResult → Except GoError Unit
  | .exited n => if n = 0 then .ok () else .error (.exitStatus n)
  | .abnormal e => .error e

/-- `ConnectAndInteract`: connect, open a session, request a PTY with the
terminal size, start the shell, and return `session.Wait()`. -/
def ConnectAndInteract (env : Env) (host : Host) : Except GoError Unit :=
  match Connect env NewConnector host with
  | (_, .error e) => .error e
  | (_, .ok _) =>
    match env.newSession with
    | some e => .error (.wrap "failed to create session" e)
    | Option.none =>
      match getTerminalSize env with
      | (width, height) =>
        match env.requestPty "xterm" height width sshTerminalModes with
        | some e => .error (.wrap "request for pseudo terminal failed" e)
        | Option.none =>
          match env.shell with
          | some e => .error (.wrap "failed to start shell" e)
          | Option.none => sessionWait env.wait

/-- `CheckConnection`: plain TCP dial to the host's address, then close. -/
def CheckConnection (env : Env) (host : Host) : Except GoError Unit :=
  let addr := addrOf host
  match env.netDial addr with
  | some e => .error (.wrap ("cannot reach " ++ addr) e)
  | Option.none => .ok ()

/-- `Ping`: TCP dial with a 5-second timeout to `host:port`, then close;
the dial error is returned unwrapped. -/
def Ping (env : Env) (host : String) (port : Int) : Except GoError Unit :=
  let addr := host ++ ":" ++ toString port
  match env.netDialTimeout addr with
  | some e => .error e
  | Option.none => .ok ()

namespace V1

/-- `buildClientConfig` of the first connector variant: no agent support;
explicit identity is a hard failure path, otherwise the default-key
soft-fail loop runs, and an empty auth list is an error. -/
def buildClientConfig (env : Env) (host : Host) : Except GoError ClientConfig :=
  let config := baseConfig host
  finalizeConfig
    (if host.identity ≠ "" then addKeyFileAuth env config host.identity
    else .ok (defaultKeys.foldl (tryDefaultKey env) config))

/-- `Connect` of the first connector variant (same body as the second). -/
def Connect (env : Env) (c : Connector) (host : Host) : Connector × Except GoError Unit :=
  match buildClientConfig env host with
  | .error e => (c, .error (.wrap "failed to build client config" e))
  | .ok config =>
    let addr := addrOf host
    match sshDial env addr config with
    | .error e => (c, .error (.wrap ("failed to connect to " ++ addr) e))
    | .ok _ => ({ client := some .mk, config := some config }, .ok ())

end V1

/-- Whether an `Except` result is a success. -/
def isOk {ε α : Type} : Except ε α → Bool
  | .ok _ => true
  | .error _ => false

/-- A baseline environment in which every external operation fails or is
absent; concrete scenarios override the relevant fields. -/
def emptyEnv : Env :=
  { getenv := fun _ => ""
    unixDial := fun _ => some (.msg "connect: no such file or directory")
    agentSigners := .error (.msg "agent unavailable")
    homeDir := .error (.msg "user: lookup failed")
    readFile := fun _ => .error (.msg "open: no such file or directory")
    parsePrivateKey := fun _ => .error (.msg "ssh: no key found")
    dialOutcome := fun _ _ _ => .tcpFailed (.msg "connection refused")
    netDial := fun _ => some (.msg "connection refused")
    netDialTimeout := fun _ => some (.msg "connection refused")
    newSession := some (.msg "session failed")
    requestPty := fun _ _ _ _ => some (.msg "pty failed")
    shell := some (.msg "shell failed")
    wait := .abnormal (.msg "channel closed") }

/-- One loop iteration either appends the parsed signer or leaves the
config untouched, according to `usableSigner`. -/
theorem tryDefaultKey_eq (env : Env) (config : ClientConfig) (k : String) :
    tryDefaultKey env config k =
      match usableSigner env k with
      | some s => { config with auth := config.auth ++ [.publicKeys [s]] }
      | Option.none => config := by
  unfold tryDefaultKey usableSigner
  cases expandPath env k with
  | error e => rfl
  | ok p =>
    cases hr : env.readFile p with
    | error e => simp [hr]
    | ok key =>
      cases hp : env.parsePrivateKey key with
      | error e => simp [hr, hp]
      | ok s => simp [hr, hp]

/-- The auth methods the default-key loop accumulates, in order: one
`PublicKeys` entry per default key whose expand+read+parse succeeds. -/
def contributedMethods (env : Env) : List SshAuthMethod :=
  (defaultKeys.filterMap (usableSigner env)).map fun s => .publicKeys [s]

/-- The default-key loop is an accumulator: it appends exactly the signers
of the usable keys, in list order, regardless of failures in between. -/
theorem foldl_tryDefaultKey (env : Env) :
    ∀ (ks : List String) (config : ClientConfig),
      ks.foldl (tryDefaultKey env) config =
        { config with
            auth := config.auth ++ (ks.filterMap (usableSigner env)).map
              fun s => SshAuthMethod.publicKeys [s] }
  | [], config => by simp
  | k :: ks, config => by
    rw [List.foldl_cons, foldl_tryDefaultKey env ks, tryDefaultKey_eq]
    cases h : usableSigner env k with
    | none => simp [h]
    | some s => simp [h, List.append_assoc]

/-- Full behavior of `addDefaultKeysAuth` as one equation. -/
theorem addDefaultKeysAuth_eq (env : Env) (config : ClientConfig) :
    addDefaultKeysAuth env config =
      if config.auth ++ contributedMethods env = [] then
        .error (.msg "no authentication method available")
      else .ok { config with auth := config.auth ++ contributedMethods env } := by
  unfold addDefaultKeysAuth contributedMethods
  rw [foldl_tryDefaultKey]
  simp [List.length_eq_zero]

/-- Whether the agent credential source yields at least one signer:
`SSH_AUTH_SOCK` set, the socket dials, and `Signers()` returns a
non-empty list (the success condition of `addSSHAgentAuth`). -/
def agentSignerAvailable (env : Env) : Bool :=
  if env.getenv "SSH_AUTH_SOCK" = "" then false
  else
    match env.unixDial (env.getenv "SSH_AUTH_SOCK") with
    | some _ => false
    | Option.none =>
      match env.agentSigners with
      | .error _ => false
      | .ok signers => if signers.length = 0 then false else true

/-- Whether the key-file method yields a signer: the explicit identity
when set, otherwise some default key path. -/
def keyFileQualifies (env : Env) (host : Host) : Bool :=
  if host.identity ≠ "" then keyUsable env host.identity
  else defaultKeys.any (keyUsable env)

/-- Full case analysis of `addSSHAgentAuth`: on an available agent it
appends one `PublicKeys` entry holding the agent's signers, otherwise
it errors. -/
theorem addSSHAgentAuth_spec (env : Env) (config : ClientConfig) :
    (∃ signers, env.agentSigners = .ok signers ∧ signers.length ≠ 0 ∧
        agentSignerAvailable env = true ∧
        addSSHAgentAuth env config =
          .ok { config with auth := config.auth ++ [.publicKeys signers] })
    ∨ (agentSignerAvailable env = false ∧ ∃ e, addSSHAgentAuth env config = .error e) := by
  unfold addSSHAgentAuth agentSignerAvailable
  by_cases hs : env.getenv "SSH_AUTH_SOCK" = ""
  · right
    simp [hs]
  · cases hu : env.unixDial (env.getenv "SSH_AUTH_SOCK") with
    | some e =>
      right
      simp [hs, hu]
    | none =>
      cases ha : env.agentSigners with
      | error e =>
        right
        simp [hs, hu, ha]
      | ok signers =>
        by_cases hl : signers.length = 0
        · right
          simp [hs, hu, ha, hl]
        · left
          exact ⟨signers, rfl, hl, by simp [hs, hu, hl], by simp [hs, hu, hl]⟩

/-- Full case analysis of `addKeyFileAuth`: a usable key path appends its
signer, anything else is a hard error. -/
theorem addKeyFileAuth_spec (env : Env) (config : ClientConfig) (path : String) :
    (∃ s, usableSigner env path = some s ∧
        addKeyFileAuth env config path =
          .ok { config with auth := config.auth ++ [.publicKeys [s]] })
    ∨ (usableSigner env path = Option.none ∧ ∃ e, addKeyFileAuth env config path = .error e) := by
  unfold addKeyFileAuth usableSigner
  cases he : expandPath env path with
  | error e => right; simp [he]
  | ok p =>
    cases hr : env.readFile p with
    | error e => right; simp [he, hr]
    | ok key =>
      cases hp : env.parsePrivateKey key with
      | error e => right; simp [he, hr, hp]
      | ok s => left; exact ⟨s, by simp [he, hr, hp], by simp [he, hr, hp]⟩

/-- `finalizeConfig` succeeds exactly on an already-ok config with a
non-empty auth list, which it passes through unchanged. -/
theorem finalizeConfig_ok (r : Except GoError ClientConfig) (c : ClientConfig)
    (h : finalizeConfig r = .ok c) : r = .ok c ∧ 0 < c.auth.length := by
  cases r with
  | error e => exact absurd h (by simp [finalizeConfig])
  | ok config =>
    by_cases hl : config.auth.length = 0
    · rw [finalizeConfig, if_pos hl] at h
      exact absurd h (by simp)
    · rw [finalizeConfig, if_neg hl] at h
      cases h
      exact ⟨rfl, Nat.pos_of_ne_zero hl⟩

/-- Every successful `buildClientConfigWithAuth` result keeps the base
config's user and host-key callback and has a non-empty auth list. -/
theorem buildClientConfigWithAuth_ok (env : Env) (host : Host) (auth : AuthMethod)
    (c : ClientConfig) (h : buildClientConfigWithAuth env host auth = .ok c) :
    c.hostKeyCallback = .insecureIgnoreHostKey ∧ c.user = host.user ∧ 0 < c.auth.length := by
  unfold buildClientConfigWithAuth at h
  rcases finalizeConfig_ok _ _ h with ⟨h0, hpos⟩
  refine ?_
  cases auth with
  | password => exact absurd h0 (by simp)
  | sshAgent =>
    rcases addSSHAgentAuth_spec env (baseConfig host) with ⟨sg, _, _, _, he⟩ | ⟨_, e, he⟩ <;>
      rw [he] at h0
    · cases h0; exact ⟨rfl, rfl, hpos⟩
    · exact absurd h0 (by simp)
  | keyFile =>
    by_cases hid : host.identity ≠ ""
    · rw [if_pos hid] at h0
      rcases addKeyFileAuth_spec env (baseConfig host) host.identity with
        ⟨s, _, he⟩ | ⟨_, e, he⟩ <;> rw [he] at h0
      · cases h0; exact ⟨rfl, rfl, hpos⟩
      · exact absurd h0 (by simp)
    · rw [if_neg hid, addDefaultKeysAuth_eq] at h0
      by_cases hc : (baseConfig host).auth ++ contributedMethods env = []
      · rw [if_pos hc] at h0
        exact absurd h0 (by simp)
      · rw [if_neg hc] at h0
        cases h0; exact ⟨rfl, rfl, hpos⟩
  | none =>
    by_cases hid : host.identity ≠ ""
    · rw [if_pos hid] at h0
      rcases addKeyFileAuth_spec env (baseConfig host) host.identity with
        ⟨s, _, he⟩ | ⟨_, e, he⟩ <;> rw [he] at h0
      · cases h0; exact ⟨rfl, rfl, hpos⟩
      · exact absurd h0 (by simp)
    · rw [if_neg hid, addDefaultKeysAuth_eq] at h0
      by_cases hc : (baseConfig host).auth ++ contributedMethods env = []
      · rw [if_pos hc] at h0
        exact absurd h0 (by simp)
      · rw [if_neg hc] at h0
        cases h0; exact ⟨rfl, rfl, hpos⟩

/-- Every successful `V1.buildClientConfig` result keeps the base config's
host-key callback. -/
theorem v1_buildClientConfig_ok (env : Env) (host : Host) (c : ClientConfig)
    (h : V1.buildClientConfig env host = .ok c) :
    c.hostKeyCallback = .insecureIgnoreHostKey := by
  unfold V1.buildClientConfig at h
  rcases finalizeConfig_ok _ _ h with ⟨h0, hpos⟩
  by_cases hid : host.identity ≠ ""
  · rw [if_pos hid] at h0
    rcases addKeyFileAuth_spec env (baseConfig host) host.identity with
      ⟨s, _, he⟩ | ⟨_, e, he⟩ <;> rw [he] at h0
    · cases h0; rfl
    · exact absurd h0 (by simp)
  · rw [if_neg hid, foldl_tryDefaultKey] at h0
    cases h0; rfl

/-- A successful `tryMethods` run is a successful `buildClientConfigWithAuth`
run for one of the listed methods. -/
theorem tryMethods_ok (env : Env) (host : Host) :
    ∀ (ms : List AuthMethod) (c : ClientConfig), tryMethods env host ms = .ok c →
      ∃ m, m ∈ ms ∧ buildClientConfigWithAuth env host m = .ok c
  | [], c, h => absurd h (by simp [tryMethods])
  | m :: ms, c, h => by
    unfold tryMethods at h
    cases hb : buildClientConfigWithAuth env host m with
    | ok config =>
      simp only [hb] at h
      by_cases hl : config.auth.length > 0
      · rw [if_pos hl] at h
        cases h
        exact ⟨m, List.mem_cons_self _ _, hb⟩
      · rw [if_neg hl] at h
        rcases tryMethods_ok env host ms c h with ⟨m', hm', hb'⟩
        exact ⟨m', List.mem_cons_of_mem _ hm', hb'⟩
    | error e =>
      simp only [hb] at h
      rcases tryMethods_ok env host ms c h with ⟨m', hm', hb'⟩
      exact ⟨m', List.mem_cons_of_mem _ hm', hb'⟩

/-- Claim C1: every SSH client configuration produced by the connector —
by `buildClientConfigWithAuth` for every host and every selected auth
method, by `buildClientConfig` of either connector variant — carries the
accept-any host-key verification callback `InsecureIgnoreHostKey`, which
accepts any presented server key, so a host-key-mismatch failure is
unreachable. -/
theorem insecure_hostkey_always (env : Env) (host : Host) (auth : AuthMethod)
    (c : ClientConfig) (k : String) :
    (buildClientConfigWithAuth env host auth = .ok c →
      c.hostKeyCallback = .insecureIgnoreHostKey ∧
        hostKeyCheck c.hostKeyCallback k = Option.none)
    ∧ (buildClientConfig env host = .ok c →
      c.hostKeyCallback = .insecureIgnoreHostKey ∧
        hostKeyCheck c.hostKeyCallback k = Option.none)
    ∧ (V1.buildClientConfig env host = .ok c →
      c.hostKeyCallback = .insecureIgnoreHostKey ∧
        hostKeyCheck c.hostKeyCallback k = Option.none) := by
  refine ⟨fun h => ?_, fun h => ?_, fun h => ?_⟩
  · have h1 := (buildClientConfigWithAuth_ok env host auth c h).1
    exact ⟨h1, by rw [h1]; rfl⟩
  · rcases tryMethods_ok env host _ c h with ⟨m, _, hb⟩
    have h1 := (buildClientConfigWithAuth_ok env host m c hb).1
    exact ⟨h1, by rw [h1]; rfl⟩
  · have h1 := v1_buildClientConfig_ok env host c h
    exact ⟨h1, by rw [h1]; rfl⟩

/-- An environment with a working agent holding one signer and nothing else. -/
def envAgentW : Env :=
  { emptyEnv with
      getenv := fun v => if v = "SSH_AUTH_SOCK" then "/run/agent.sock" else ""
      unixDial := fun _ => Option.none
      agentSigners := .ok ["agent-signer"] }

/-- The config `buildClientConfig` produces in `envAgentW`. -/
def cAgentW : ClientConfig :=
  { user := "u", auth := [.publicKeys ["agent-signer"]],
    hostKeyCallback := .insecureIgnoreHostKey }

/-- Witness for C1: the concrete config built for a concrete host carries
`InsecureIgnoreHostKey` and accepts an arbitrary unknown server key. -/
theorem insecure_hostkey_always_witness :
    cAgentW.hostKeyCallback = HostKeyCallback.insecureIgnoreHostKey ∧
      hostKeyCheck cAgentW.hostKeyCallback "unknown-server-key" = Option.none :=
  (insecure_hostkey_always envAgentW { host := "h", port := 22, user := "u" }
    .sshAgent cAgentW "unknown-server-key").2.1 rfl

/-- Claim C7: the default-key traversal is soft-fail per key: a malformed
entry (unexpandable path, unreadable file, unparsable key) does not prevent
later entries from being tried — the final auth list is the accumulation of
exactly the signers of the usable keys, in order — and only a total
accumulation of zero signers is reported as an error. -/
theorem addDefaultKeysAuth_soft_fail (env : Env) (config : ClientConfig) :
    (config.auth ++ contributedMethods env ≠ [] →
      addDefaultKeysAuth env config =
        .ok { config with auth := config.auth ++ contributedMethods env })
    ∧ (config.auth ++ contributedMethods env = [] →
      addDefaultKeysAuth env config = .error (.msg "no authentication method available")) := by
  constructor <;> intro h <;> rw [addDefaultKeysAuth_eq] <;> simp [h]

/-- An environment whose first and third default keys are malformed
(unreadable and unparsable respectively) while the second and fourth parse. -/
def envSoftFail : Env :=
  { emptyEnv with
      homeDir := .ok "/h"
      readFile := fun p =>
        if p = "/h/.ssh/id_rsa" then .ok "K1"
        else if p = "/h/.ssh/id_ecdsa" then .ok "CORRUPT"
        else if p = "/h/.ssh/id_dsa" then .ok "K2"
        else .error (.msg "open: no such file or directory")
      parsePrivateKey := fun s =>
        if s = "K1" then .ok "S1"
        else if s = "K2" then .ok "S2"
        else .error (.msg "ssh: no key found") }

/-- Witness for C7: with the first key unreadable and the third unparsable,
the second and fourth keys still contribute their signers, in order. -/
theorem addDefaultKeysAuth_soft_fail_witness :
    addDefaultKeysAuth envSoftFail (baseConfig { user := "u" }) =
      .ok { user := "u", auth := [.publicKeys ["S1"], .publicKeys ["S2"]],
            hostKeyCallback := .insecureIgnoreHostKey } :=
  (addDefaultKeysAuth_soft_fail envSoftFail (baseConfig { user := "u" })).1 (by decide)

/-- The empty default-key accumulation is exactly "no default key is usable". -/
theorem contributedMethods_nil_iff (env : Env) :
    (contributedMethods env = []) ↔ (defaultKeys.any (keyUsable env) = false) := by
  unfold contributedMethods keyUsable
  rw [List.map_eq_nil_iff, List.filterMap_eq_nil_iff, List.any_eq_false]
  constructor
  · intro h x hx
    simp [h x hx]
  · intro h a ha
    have h2 := h a ha
    cases hu : usableSigner env a with
    | none => rfl
    | some s =>
      rw [hu] at h2
      simp at h2

/-- The agent attempt of `buildClientConfigWithAuth` succeeds exactly when
the agent yields at least one signer. -/
theorem withAuth_agent_isOk (env : Env) (host : Host) :
    isOk (buildClientConfigWithAuth env host .sshAgent) = agentSignerAvailable env := by
  unfold buildClientConfigWithAuth
  dsimp only
  rcases addSSHAgentAuth_spec env (baseConfig host) with ⟨sg, _, _, hav, he⟩ | ⟨hav, e, he⟩ <;>
    rw [he, hav]
  · simp [finalizeConfig, isOk]
  · simp [finalizeConfig, isOk]

/-- The key-file attempt of `buildClientConfigWithAuth` succeeds exactly
when the explicit identity (when set) or some default key (otherwise)
yields a parsable signer. -/
theorem withAuth_keyFile_isOk (env : Env) (host : Host) :
    isOk (buildClientConfigWithAuth env host .keyFile) = keyFileQualifies env host := by
  unfold buildClientConfigWithAuth keyFileQualifies
  dsimp only
  by_cases hid : host.identity ≠ ""
  · rw [if_pos hid, if_pos hid]
    rcases addKeyFileAuth_spec env (baseConfig host) host.identity with
      ⟨s, hu, he⟩ | ⟨hu, e, he⟩ <;> rw [he] <;> unfold keyUsable <;> rw [hu] <;>
      simp [finalizeConfig, isOk]
  · rw [if_neg hid, if_neg hid, addDefaultKeysAuth_eq]
    have hb : (baseConfig host).auth = [] := rfl
    rw [hb, List.nil_append]
    by_cases hc : contributedMethods env = []
    · rw [if_pos hc, (contributedMethods_nil_iff env).mp hc]
      simp [finalizeConfig, isOk]
    · rw [if_neg hc]
      have ht : defaultKeys.any (keyUsable env) = true := by
        cases h : defaultKeys.any (keyUsable env) with
        | false => exact absurd ((contributedMethods_nil_iff env).mpr h) hc
        | true => rfl
      rw [ht]
      simp [finalizeConfig, isOk, List.length_eq_zero, hc]

/-- Claim C2 (amended): `buildClientConfig` succeeds iff the agent yields a
signer, or — when the explicit identity is set — that identity file parses,
or — only when the identity is empty — some default key path parses.  (The
claim as frozen also allows a parsable default key to rescue a host whose
explicit identity fails; the code does not: see the counterexample.) -/
theorem buildClientConfig_ok_iff (env : Env) (host : Host) :
    isOk (buildClientConfig env host) =
      (agentSignerAvailable env || keyFileQualifies env host) := by
  have hA := withAuth_agent_isOk env host
  have hK := withAuth_keyFile_isOk env host
  unfold buildClientConfig
  cases h1 : buildClientConfigWithAuth env host .sshAgent with
  | ok c1 =>
    have pos := (buildClientConfigWithAuth_ok env host _ c1 h1).2.2
    rw [h1] at hA
    simp only [isOk] at hA
    simp [tryMethods, h1, pos, ← hA, isOk]
  | error e1 =>
    rw [h1] at hA
    simp only [isOk] at hA
    cases h2 : buildClientConfigWithAuth env host .keyFile with
    | ok c2 =>
      have pos2 := (buildClientConfigWithAuth_ok env host _ c2 h2).2.2
      rw [h2] at hK
      simp only [isOk] at hK
      simp [tryMethods, h1, h2, pos2, ← hA, ← hK, isOk]
    | error e2 =>
      rw [h2] at hK
      simp only [isOk] at hK
      simp [tryMethods, h1, h2, ← hA, ← hK, isOk]

/-- An environment with no agent, a readable-but-unparsable explicit key at
`/bad/key`, and a perfectly usable default key `~/.ssh/id_rsa`. -/
def envMasked : Env :=
  { emptyEnv with
      homeDir := .ok "/home/u"
      readFile := fun p =>
        if p = "/home/u/.ssh/id_rsa" then .ok "RSAKEY"
        else if p = "/bad/key" then .ok "JUNK"
        else .error (.msg "open: no such file or directory")
      parsePrivateKey := fun s =>
        if s = "RSAKEY" then .ok "rsa-signer"
        else .error (.msg "ssh: no key found") }

/-- A host that pins a bad explicit identity. -/
def hostMasked : Host :=
  { host := "203.0.113.5", port := 22, user := "admin", identity := "/bad/key" }

/-- Counterexample for C2: a default key path yields a parsable signer, yet
`buildClientConfig` still reports authentication exhaustion, because a set
(but unparsable) explicit identity suppresses the default-key fallback. -/
theorem buildClientConfig_default_key_masked :
    defaultKeys.any (keyUsable envMasked) = true ∧
      buildClientConfig envMasked hostMasked =
        .error (.msg "no authentication method available") :=
  ⟨rfl, rfl⟩

/-- Every error exit of `tryMethods` is the fixed exhaustion message. -/
theorem tryMethods_error (env : Env) (host : Host) :
    ∀ (ms : List AuthMethod) (e : GoError), tryMethods env host ms = .error e →
      e = .msg "no authentication method available"
  | [], e, h => by
    unfold tryMethods at h
    cases h
    rfl
  | m :: ms, e, h => by
    unfold tryMethods at h
    cases hb : buildClientConfigWithAuth env host m with
    | ok config =>
      simp only [hb] at h
      by_cases hl : config.auth.length > 0
      · rw [if_pos hl] at h
        exact absurd h (by simp)
      · rw [if_neg hl] at h
        exact tryMethods_error env host ms e h
    | error e' =>
      simp only [hb] at h
      exact tryMethods_error env host ms e h

/-- Claim C4 (amended): when auth resolution fails, the single resulting
error is always the fixed message "no authentication method available"; it
does not report which authentication methods were attempted. -/
theorem auth_error_fixed_message (env : Env) (host : Host)
    (h : isOk (buildClientConfig env host) = false) :
    buildClientConfig env host = .error (.msg "no authentication method available") := by
  cases hb : buildClientConfig env host with
  | ok c =>
    rw [hb] at h
    exact absurd h (by simp [isOk])
  | error e =>
    rw [tryMethods_error env host _ e hb]

/-- An environment whose agent fails for a different reason (socket set but
not dialable) than in the spec's end-to-end scenario. -/
def envOtherFailure : Env :=
  { emptyEnv with getenv := fun v => if v = "SSH_AUTH_SOCK" then "/run/agent.sock" else "" }

/-- The spec's end-to-end scenario host: empty identity. -/
def host203 : Host :=
  { host := "203.0.113.5", port := 22, user := "admin", identity := "" }

/-- A host with an unreadable explicit identity. -/
def hostBadIdentity : Host :=
  { host := "10.0.0.1", port := 2222, user := "root", identity := "/etc/badkey" }

/-- Counterexample for C4: two exhaustion failures with entirely different
attempted methods (no agent + no default keys, vs. dead agent socket +
unreadable explicit identity) produce the identical error value — the fixed
message — which therefore lists neither `Agent` nor any default key file. -/
theorem auth_error_lists_nothing :
    buildClientConfig emptyEnv host203 = .error (.msg "no authentication method available")
    ∧ buildClientConfig envOtherFailure hostBadIdentity =
        .error (.msg "no authentication method available") :=
  ⟨rfl, rfl⟩

/-- Witness for C4 (amended): the spec scenario's failure evaluates to the
fixed message via `auth_error_fixed_message`. -/
theorem auth_error_fixed_message_witness :
    buildClientConfig emptyEnv host203 = .error (.msg "no authentication method available") :=
  auth_error_fixed_message emptyEnv host203 rfl

/-- Claim C9: `Connect` and `ConnectWithAuth` are atomic on failure — any
error (config building or dialing) leaves the connector's `client` and
`config` fields unchanged, so a fresh connector still reports
`IsConnected = false` after a failed `Connect`. -/
theorem connect_failure_preserves_state (env : Env) (c : Connector) (host : Host)
    (auth : AuthMethod) :
    (∀ e, (Connect env c host).2 = .error e → (Connect env c host).1 = c)
    ∧ (∀ e, (ConnectWithAuth env c host auth).2 = .error e →
        (ConnectWithAuth env c host auth).1 = c)
    ∧ (∀ e, (Connect env NewConnector host).2 = .error e →
        IsConnected (Connect env NewConnector host).1 = false) := by
  have hmain : ∀ (c' : Connector) (e : GoError),
      (Connect env c' host).2 = .error e → (Connect env c' host).1 = c' := by
    intro c' e h
    unfold Connect at h ⊢
    cases hb : buildClientConfig env host with
    | error e' => simp [hb]
    | ok config =>
      simp only [hb] at h ⊢
      cases hd : sshDial env (addrOf host) config with
      | error e' => simp [hd]
      | ok u =>
        simp only [hd] at h
        exact absurd h (by simp)
  have hwith : ∀ (e : GoError), (ConnectWithAuth env c host auth).2 = .error e →
      (ConnectWithAuth env c host auth).1 = c := by
    intro e h
    unfold ConnectWithAuth at h ⊢
    cases hb : buildClientConfigWithAuth env host auth with
    | error e' => simp [hb]
    | ok config =>
      simp only [hb] at h ⊢
      cases hd : sshDial env (addrOf host) config with
      | error e' => simp [hd]
      | ok u =>
        simp only [hd] at h
        exact absurd h (by simp)
  exact ⟨hmain c, hwith, fun e h => by rw [hmain NewConnector e h]; rfl⟩

/-- A connector that is already connected, used to observe preservation. -/
def connPrev : Connector :=
  { client := some .mk
    config := some { user := "x", auth := [.publicKeys ["s"]],
                     hostKeyCallback := .insecureIgnoreHostKey } }

/-- Witness for C9: in an environment whose TCP dial is refused, a failed
`Connect` leaves a populated connector unchanged and a fresh connector
disconnected. -/
theorem connect_failure_preserves_state_witness :
    (Connect envAgentW connPrev { host := "w", port := 22, user := "u" }).1 = connPrev
    ∧ IsConnected (Connect envAgentW NewConnector { host := "w", port := 22, user := "u" }).1
        = false :=
  ⟨(connect_failure_preserves_state envAgentW connPrev
      { host := "w", port := 22, user := "u" } .sshAgent).1
      (.wrap "failed to connect to w:22" (.msg "connection refused")) rfl,
    (connect_failure_preserves_state envAgentW connPrev
      { host := "w", port := 22, user := "u" } .sshAgent).2.2
      (.wrap "failed to connect to w:22" (.msg "connection refused")) rfl⟩

/-- Claim C8: `getTerminalSize` falls back to 80×24 whenever the `COLUMNS`
or `LINES` hint is absent (empty) or fails to parse as an integer, and
returns both raw parsed values verbatim when both are present and parse. -/
theorem terminal_size_defaults (env : Env) :
    ((env.getenv "COLUMNS" = "" ∨ env.getenv "LINES" = "" ∨
        atoi (env.getenv "COLUMNS") = Option.none ∨
        atoi (env.getenv "LINES") = Option.none) →
      getTerminalSize env = (80, 24))
    ∧ (∀ w h, env.getenv "COLUMNS" ≠ "" → env.getenv "LINES" ≠ "" →
        atoi (env.getenv "COLUMNS") = some w → atoi (env.getenv "LINES") = some h →
        getTerminalSize env = (w, h)) := by
  unfold getTerminalSize getTerminalSizeImpl
  constructor
  · intro h
    rcases h with h | h | h | h
    · simp [h]
    · simp [h]
    · by_cases hc : env.getenv "COLUMNS" = ""
      · simp [hc]
      · by_cases hl : env.getenv "LINES" = ""
        · simp [hc, hl]
        · cases ha : atoi (env.getenv "LINES") <;> simp [hc, hl, h, ha]
    · by_cases hc : env.getenv "COLUMNS" = ""
      · simp [hc]
      · by_cases hl : env.getenv "LINES" = ""
        · simp [hc, hl]
        · cases ha : atoi (env.getenv "COLUMNS") <;> simp [hc, hl, h, ha]
  · intro w h hc hl hac hal
    simp [hc, hl, hac, hal]

/-- An environment with parsable `COLUMNS`/`LINES` hints. -/
def envTermW : Env :=
  { emptyEnv with
      getenv := fun v => if v = "COLUMNS" then "137" else if v = "LINES" then "42" else "" }

/-- An environment whose `COLUMNS` hint does not parse. -/
def envTermD : Env :=
  { emptyEnv with
      getenv := fun v =>
        if v = "COLUMNS" then "onehundred" else if v = "LINES" then "42" else "" }

/-- Witness for C8: parsable hints are returned verbatim; an unparsable
hint falls back to 80×24. -/
theorem terminal_size_defaults_witness :
    getTerminalSize envTermW = (137, 42) ∧ getTerminalSize envTermD = (80, 24) :=
  ⟨(terminal_size_defaults envTermW).2 137 42 (by decide) (by decide) rfl rfl,
    (terminal_size_defaults envTermD).1 (Or.inr (Or.inr (Or.inl rfl)))⟩

/-- Claim C10: `expandPath` expands exactly the paths that begin with the
two characters `~/` (hence are strictly longer than one character), joining
the remainder onto the home directory; every other path — the bare `~`,
the empty string, absolute and relative paths — is returned unchanged with
no error. -/
theorem expandPath_tilde_only (env : Env) (path : String) :
    (path.data.take 2 ≠ ['~', '/'] → expandPath env path = .ok path)
    ∧ (path.data.take 2 = ['~', '/'] →
        expandPath env path =
          match env.homeDir with
          | .error e => .error e
          | .ok home => .ok (filepathJoin home (path.drop 2)))
    ∧ expandPath env "~" = .ok "~"
    ∧ expandPath env "" = .ok "" := by
  obtain ⟨cs⟩ := path
  refine ⟨?_, ?_, ?_, ?_⟩
  · intro hne
    unfold expandPath
    rw [if_neg]
    rintro ⟨hl, ht⟩
    apply hne
    rw [String.take_eq] at ht
    exact congrArg String.data ht
  · intro ht
    rcases cs with _ | ⟨a, _ | ⟨b, t⟩⟩
    · simp at ht
    · simp at ht
    · simp only [List.take_cons, List.take_nil, List.take_zero] at ht
      obtain ⟨rfl, rfl, -⟩ : a = '~' ∧ b = '/' ∧ True := by
        cases ht
        exact ⟨rfl, rfl, trivial⟩
      unfold expandPath
      rw [if_pos]
      constructor
      · simp
      · rw [String.take_eq]
        exact rfl
  · unfold expandPath
    rw [if_neg]
    rintro ⟨hl, -⟩
    exact absurd hl (by decide)
  · unfold expandPath
    rw [if_neg]
    rintro ⟨hl, -⟩
    exact absurd hl (by decide)

/-- An environment that knows the home directory. -/
def envHome : Env := { emptyEnv with homeDir := .ok "/home/u" }

/-- A standard reachable host on port 22. -/
def hostStd : Host := { host := "h", port := 22, user := "u" }

/-- An environment with a working agent where only the address `h:22` is
reachable and accepts the connection; every other address is refused by
both the SSH dialer and the plain TCP dialers. -/
def envPortProbe : Env :=
  { emptyEnv with
      getenv := fun v => if v = "SSH_AUTH_SOCK" then "/run/agent.sock" else ""
      unixDial := fun _ => Option.none
      agentSigners := .ok ["agent-signer"]
      homeDir := .ok "/home/u"
      readFile := fun p =>
        if p = "/home/u/.ssh/id_rsa" then .ok "K"
        else .error (.msg "open: no such file or directory")
      parsePrivateKey := fun s =>
        if s = "K" then .ok "S" else .error (.msg "ssh: no key found")
      dialOutcome := fun addr _ _ =>
        if addr = "h:22" then .presented "server-key" Option.none
        else .tcpFailed (.msg ("refused " ++ addr))
      netDial := fun addr =>
        if addr = "h:22" then Option.none else some (.msg ("refused " ++ addr))
      netDialTimeout := fun addr =>
        if addr = "h:22" then Option.none else some (.msg ("refused " ++ addr)) }

/-- The port-zero host record. -/
def hostPort0 : Host := { host := "h", port := 0, user := "u" }

/-- Counterexample for C3: for a record with `port = 0`, every dialing
function dials `h:0` — and fails there — even though `h:22` would accept;
no port-22 defaulting happens at dial time. -/
theorem port_zero_dials_port_zero :
    (Connect envPortProbe NewConnector hostPort0).2 =
        .error (.wrap "failed to connect to h:0" (.msg "refused h:0"))
    ∧ (ConnectWithAuth envPortProbe NewConnector hostPort0 .sshAgent).2 =
        .error (.wrap "failed to connect to h:0" (.msg "refused h:0"))
    ∧ (V1.Connect envPortProbe NewConnector hostPort0).2 =
        .error (.wrap "failed to connect to h:0" (.msg "refused h:0"))
    ∧ CheckConnection envPortProbe hostPort0 =
        .error (.wrap "cannot reach h:0" (.msg "refused h:0"))
    ∧ Ping envPortProbe "h" 0 = .error (.msg "refused h:0")
    ∧ (Connect envPortProbe NewConnector { hostPort0 with port := 22 }).2 = .ok () :=
  ⟨rfl, rfl, rfl, rfl, rfl, rfl⟩

/-- Claim C3 (amended): no port defaulting is applied at dial time — the
dial address is the record's `host:port` verbatim, so for `port = 0` it is
`host:0`, and the connect/check/ping functions consult the dialing oracles
only at that address.  (The `port == 0 → 22` defaulting of this repository
lives in the TUI edit form when a host is saved, outside these functions.) -/
theorem dial_uses_raw_port (env : Env) (c : Connector) (host : Host) (auth : AuthMethod)
    (f : String → String → List SshAuthMethod → DialOutcome) (g gt : String → Option GoError)
    (hport : host.port = 0)
    (hf : ∀ u a, f (host.host ++ ":0") u a = env.dialOutcome (host.host ++ ":0") u a)
    (hg : g (host.host ++ ":0") = env.netDial (host.host ++ ":0"))
    (hgt : gt (host.host ++ ":0") = env.netDialTimeout (host.host ++ ":0")) :
    addrOf host = host.host ++ ":0"
    ∧ Connect { env with dialOutcome := f } c host = Connect env c host
    ∧ ConnectWithAuth { env with dialOutcome := f } c host auth =
        ConnectWithAuth env c host auth
    ∧ V1.Connect { env with dialOutcome := f } c host = V1.Connect env c host
    ∧ CheckConnection { env with netDial := g } host = CheckConnection env host
    ∧ Ping { env with netDialTimeout := gt } host.host host.port =
        Ping env host.host host.port := by
  have hstr : host.host ++ ":" ++ toString (0 : Int) = host.host ++ ":0" := by
    rw [String.append_assoc]
    rfl
  have haddr : addrOf host = host.host ++ ":0" := by
    unfold addrOf
    rw [hport]
    exact hstr
  have hbuild : buildClientConfig { env with dialOutcome := f } host =
      buildClientConfig env host := rfl
  have hbuildA : buildClientConfigWithAuth { env with dialOutcome := f } host auth =
      buildClientConfigWithAuth env host auth := rfl
  have hbuild1 : V1.buildClientConfig { env with dialOutcome := f } host =
      V1.buildClientConfig env host := rfl
  have hdial : ∀ config : ClientConfig,
      sshDial { env with dialOutcome := f } (addrOf host) config =
        sshDial env (addrOf host) config := by
    intro config
    unfold sshDial
    rw [haddr]
    dsimp only
    rw [hf config.user config.auth]
  refine ⟨haddr, ?_, ?_, ?_, ?_, ?_⟩
  · unfold Connect
    rw [hbuild]
    cases hb : buildClientConfig env host with
    | error e => rfl
    | ok config =>
      simp only [hb]
      rw [hdial config]
  · unfold ConnectWithAuth
    rw [hbuildA]
    cases hb : buildClientConfigWithAuth env host auth with
    | error e => rfl
    | ok config =>
      simp only [hb]
      rw [hdial config]
  · unfold V1.Connect
    rw [hbuild1]
    cases hb : V1.buildClientConfig env host with
    | error e => rfl
    | ok config =>
      simp only [hb]
      rw [hdial config]
  · unfold CheckConnection
    rw [haddr]
    dsimp only
    rw [hg]
  · unfold Ping
    rw [hport, hstr]
    dsimp only
    rw [hgt]

/-- A dial oracle that agrees with `envPortProbe` at `h:0` only. -/
def fModDial : String → String → List SshAuthMethod → DialOutcome := fun addr u a =>
  if addr = "h:0" then envPortProbe.dialOutcome addr u a
  else .kexFailed (.msg "changed elsewhere")

/-- A TCP oracle that agrees with `envPortProbe` at `h:0` only. -/
def gModDial : String → Option GoError := fun addr =>
  if addr = "h:0" then envPortProbe.netDial addr else some (.msg "changed elsewhere")

/-- Witness for C3 (amended): changing the dial oracles everywhere except
`h:0` leaves every outcome for the port-zero host unchanged. -/
theorem dial_uses_raw_port_witness :
    addrOf hostPort0 = "h:0"
    ∧ Connect { envPortProbe with dialOutcome := fModDial } NewConnector hostPort0 =
        Connect envPortProbe NewConnector hostPort0
    ∧ CheckConnection { envPortProbe with netDial := gModDial } hostPort0 =
        CheckConnection envPortProbe hostPort0
    ∧ Ping { envPortProbe with netDialTimeout := gModDial } hostPort0.host hostPort0.port =
        Ping envPortProbe hostPort0.host hostPort0.port :=
  ⟨(dial_uses_raw_port envPortProbe NewConnector hostPort0 .sshAgent fModDial gModDial
      gModDial rfl (fun _ _ => rfl) rfl rfl).1,
    (dial_uses_raw_port envPortProbe NewConnector hostPort0 .sshAgent fModDial gModDial
      gModDial rfl (fun _ _ => rfl) rfl rfl).2.1,
    (dial_uses_raw_port envPortProbe NewConnector hostPort0 .sshAgent fModDial gModDial
      gModDial rfl (fun _ _ => rfl) rfl rfl).2.2.2.2.1,
    (dial_uses_raw_port envPortProbe NewConnector hostPort0 .sshAgent fModDial gModDial
      gModDial rfl (fun _ _ => rfl) rfl rfl).2.2.2.2.2⟩

/-- Claim C5 (amended): `Connect` distinguishes exactly two failure shapes
of its own: config-build failures wrapped as "failed to build client
config", and connection failures wrapped as "failed to connect to <addr>";
TCP-dial and handshake failures receive the same wrapper, no record of the
auth method in use is attached, and a host-key policy rejection never
occurs (the callback accepts every key). -/
theorem connect_error_shapes (env : Env) (c : Connector) (host : Host) :
    (Connect env c host).2 = .ok ()
    ∨ (∃ e, (Connect env c host).2 = .error (.wrap "failed to build client config" e))
    ∨ (∃ e, (Connect env c host).2 =
        .error (.wrap ("failed to connect to " ++ addrOf host) e)) := by
  unfold Connect
  cases hb : buildClientConfig env host with
  | error e =>
    simp only [hb]
    exact Or.inr (Or.inl ⟨e, rfl⟩)
  | ok config =>
    simp only [hb]
    cases hd : sshDial env (addrOf host) config with
    | error e =>
      simp only [hd]
      exact Or.inr (Or.inr ⟨e, rfl⟩)
    | ok u =>
      simp only [hd]
      exact Or.inl (by trivial)

/-- An environment whose server presents an unrecognised key but otherwise
authenticates. -/
def envKeyChanged : Env :=
  { envAgentW with dialOutcome := fun _ _ _ => .presented "attacker-key" Option.none }

/-- An environment whose key exchange fails after the TCP connect. -/
def envKexFail : Env :=
  { envAgentW with
      dialOutcome := fun _ _ _ => .kexFailed (.msg "ssh: handshake failed: kex mismatch") }

/-- Counterexample for C5: a changed/unknown server key yields success (a
`HostKeyMismatch` failure is impossible), and a TCP-dial failure and a
handshake failure carry the identical classification the code attaches
("failed to connect to h:22"), with no record of the auth method in use. -/
theorem connect_no_hostkey_mismatch_class :
    (Connect envKeyChanged NewConnector hostStd).2 = .ok ()
    ∧ (Connect envAgentW NewConnector hostStd).2 =
        .error (.wrap "failed to connect to h:22" (.msg "connection refused"))
    ∧ (Connect envKexFail NewConnector hostStd).2 =
        .error (.wrap "failed to connect to h:22" (.msg "ssh: handshake failed: kex mismatch"))
    ∧ outerMessage (.wrap "failed to connect to h:22" (.msg "connection refused")) =
        outerMessage (.wrap "failed to connect to h:22"
          (.msg "ssh: handshake failed: kex mismatch")) :=
  ⟨rfl, rfl, rfl, rfl⟩

/-- Claim C6 (amended): when the session reaches the streaming phase and
the remote process terminates normally with status `n`, the driver returns
success (nil) exactly for `n = 0` and otherwise the `ExitError` carrying
`n` — the numeric status is propagated inside the returned error, not as a
successful result. -/
theorem interact_exit_status_in_error (env : Env) (host : Host) (n : Nat)
    (hc : (Connect env NewConnector host).2 = .ok ())
    (hs : env.newSession = Option.none)
    (hp : env.requestPty "xterm" (getTerminalSize env).2 (getTerminalSize env).1
        sshTerminalModes = Option.none)
    (hsh : env.shell = Option.none)
    (hw : env.wait = .exited n) :
    ConnectAndInteract env host = if n = 0 then .ok () else .error (.exitStatus n) := by
  unfold ConnectAndInteract
  rcases hcp : Connect env NewConnector host with ⟨c1, r1⟩
  rw [hcp] at hc
  simp only at hc
  subst hc
  rcases hts : getTerminalSize env with ⟨w, hgt⟩
  rw [hts] at hp
  simp only at hp
  simp only [hcp, hs, hts, hp, hsh, hw]
  rfl

/-- The spec's end-to-end interactive scenario: working agent, reachable
host, terminal hints 100×40, remote shell exits with status 7. -/
def envExit7 : Env :=
  { envAgentW with
      getenv := fun v =>
        if v = "SSH_AUTH_SOCK" then "/run/agent.sock"
        else if v = "COLUMNS" then "100"
        else if v = "LINES" then "40"
        else ""
      dialOutcome := fun _ _ _ => .presented "server-key" Option.none
      newSession := Option.none
      requestPty := fun _ _ _ _ => Option.none
      shell := Option.none
      wait := .exited 7 }

/-- Counterexample for C6: with the remote shell running `exit 7`, the
driver does not return a successful result — it returns the `ExitError`
carrying 7. -/
theorem interact_exit7_not_success :
    ConnectAndInteract envExit7 hostStd = .error (.exitStatus 7)
    ∧ ConnectAndInteract envExit7 hostStd ≠ .ok () := by
  have h1 : ConnectAndInteract envExit7 hostStd = .error (.exitStatus 7) := rfl
  exact ⟨h1, by rw [h1]; simp⟩

/-- The same scenario with a cleanly exiting remote process. -/
def envExit0 : Env := { envExit7 with wait := .exited 0 }

/-- Witness for C6 (amended): a zero exit status is returned as success. -/
theorem interact_exit_status_in_error_witness :
    ConnectAndInteract envExit0 hostStd = .ok () :=
  interact_exit_status_in_error envExit0 hostStd 0 rfl rfl rfl rfl rfl

/-- Witness for C10: a `~/` path is joined onto the home directory, and
`~`, the empty string, an absolute and a relative path pass unchanged. -/
theorem expandPath_tilde_only_witness :
    expandPath envHome "~/.ssh/id_rsa" = .ok "/home/u/.ssh/id_rsa"
    ∧ expandPath envHome "~" = .ok "~"
    ∧ expandPath envHome "" = .ok ""
    ∧ expandPath envHome "/abs/key" = .ok "/abs/key"
    ∧ expandPath envHome "rel/key" = .ok "rel/key" :=
  ⟨(expandPath_tilde_only envHome "~/.ssh/id_rsa").2.1 rfl,
    (expandPath_tilde_only envHome "~").2.2.1,
    (expandPath_tilde_only envHome "").2.2.2,
    (expandPath_tilde_only envHome "/abs/key").1 (by decide),
    (expandPath_tilde_only envHome "rel/key").1 (by decide)⟩

end Sshm
